import Mathlib

/-
Shallow embedding of `src/main.cxx` (glfly): a GLFW/OpenGL "hello triangle"
program.  External calls (GLFW, GL, glad) are modelled as events appended to a
trace; the outside world (success of glfwInit / glfwCreateWindow, file
contents, shader compile/link status, framebuffer sizes, delivered input
events) is a `Config`.  Machine ints that matter only as opaque values are
`Int`/`Nat`; bitwise tests from the key callback are `Nat` land (`&&&`),
matching two's-complement C semantics on the non-negative values GLFW passes.
The preprocessor flag `DEBUG` (which gates all logging and diagnostic
retrieval in the source) is `Config.debug`.
-/

/-! GLFW and GL constants, values as in `glfw3.h` / `glad/gl.h`. -/

def GLFW_KEY_Q : Int := 81
def GLFW_KEY_W : Int := 87
def GLFW_KEY_F4 : Int := 293
def GLFW_KEY_UP : Nat := 265
def GLFW_MOD_CONTROL : Nat := 2
def GLFW_MOD_ALT : Nat := 4
def GLFW_RELEASE : Nat := 0
def GLFW_PRESS : Nat := 1
def GLFW_REPEAT : Nat := 2
def GLFW_CONTEXT_VERSION_MAJOR : Nat := 0x00022002
def GLFW_CONTEXT_VERSION_MINOR : Nat := 0x00022003
def GLFW_OPENGL_PROFILE : Nat := 0x00022008
def GLFW_OPENGL_CORE_PROFILE : Nat := 0x00032001
def GLFW_DECORATED : Nat := 0x00020005
def GLFW_OPENGL_DEBUG_CONTEXT : Nat := 0x00022007
def GL_VERTEX_SHADER : Nat := 0x8B31
def GL_FRAGMENT_SHADER : Nat := 0x8B30
def GL_LINK_STATUS : Nat := 0x8B82
def GL_INFO_LOG_LENGTH : Nat := 0x8B84
def GL_COLOR_BUFFER_BIT : Nat := 0x4000
def GL_TRIANGLES : Nat := 0x0004

/-- A key event as delivered by GLFW to `keyCallback` (window pointer left
implicit; the callback's only effect on the window is the close flag). -/
structure KeyEvent where
  key : Int
  scancode : Int
  action : Nat
  mods : Nat
deriving DecidableEq

/-- One observable external call made by the program.  `glDeleteProgram` is
included even though `main.cxx` never calls it, so that its absence from every
trace is expressible. -/
inductive Ev where
  | glfwInitCall (ok : Bool)
  | glfwSetErrorCallbackCall
  | glfwWindowHint (hint value : Nat)
  | glfwCreateWindow (width height : Nat) (ok : Bool)
  | glfwMakeContextCurrent
  | gladLoadGLCall
  | glfwSwapInterval (interval : Nat)
  | glfwSetKeyCallbackCall
  | glfwGetFramebufferSize (width height : Int)
  | glfwSwapBuffers
  | glfwPollEvents
  | glfwDestroyWindow
  | glfwTerminate
  | glEnableDebugOutput
  | glDebugMessageCallbackARBCall
  | glGetStringVersion
  | glCreateShader (shaderType name : Nat)
  | glShaderSource (name : Nat) (source : String)
  | glCompileShader (name : Nat)
  | glCreateProgram (name : Nat)
  | glAttachShader (programName shaderName : Nat)
  | glLinkProgram (name : Nat)
  | glGetProgramiv (name pname : Nat) (value : Int)
  | glGetProgramInfoLog (name : Nat)
  | glGetShaderiv (name pname : Nat) (value : Int)
  | glGetShaderInfoLog (name : Nat)
  | glDetachShader (programName shaderName : Nat)
  | glDeleteShader (name : Nat)
  | glGenVertexArrays (name : Nat)
  | glBindVertexArray (name : Nat)
  | glViewport (x y width height : Int)
  | glClearColor
  | glClear (mask : Nat)
  | glUseProgram (name : Nat)
  | glDrawArrays (mode : Nat) (first count : Int)
  | glDeleteVertexArrays (name : Nat)
  | glDeleteProgram (name : Nat)
  | reportError (message : String)
deriving DecidableEq

/-- How the process ends (or that the loop fuel ran out first). -/
inductive Outcome where
  | normal
  | exitFailure
  | uncaught (msg : String)
  | fuelExhausted
deriving DecidableEq

/-- GL object-name allocator state (shader, program and VAO names drawn from
one counter; the first name handed out is 1, as 0 is reserved in GL). -/
structure GLState where
  nextName : Nat
deriving DecidableEq

/-- `struct ProgramData` from `main.cxx`: shader-program handle, vertex-array
handle, vertex count (the `vbo`/`ibo` members are commented out in the
source). -/
structure ProgramData where
  program : Nat
  vao : Nat
  vertexCount : Int
deriving DecidableEq

/-- The environment the program runs against: success/failure of the
windowing calls, the file system, the GL implementation's compile/link
verdicts and info-log lengths, per-iteration framebuffer sizes, and the input
events (OS close requests and key events) delivered by each
`glfwPollEvents`. -/
structure Config where
  debug : Bool
  arbDebugOutput : Bool
  glfwInitOk : Bool
  createWindowOk : Bool
  fs : String → Option String
  glCompileOk : String → Bool
  glLinkOk : String → String → Bool
  progLogLen : Int
  vertLogLen : Int
  fragLogLen : Int
  fbSize : Nat → Int × Int
  osClose : Nat → Bool
  keyEvents : Nat → List KeyEvent

/-! ## readFile -/

/-- The sequence of strings produced by `while (std::getline(streamIn, s))`
on the given character stream: maximal `'\n'`-free segments; a final segment
before end-of-file is produced even without a terminating `'\n'`, and a
`getline` that extracts nothing at end-of-file fails (so no trailing empty
segment arises from a terminating `'\n'`). -/
def getlineSplit : List Char → List (List Char)
  | [] => []
  | c :: cs =>
    if c = '\n' then [] :: getlineSplit cs
    else
      match getlineSplit cs with
      | [] => [[c]]
      | l :: ls => (c :: l) :: ls

/-- Body of `readFile`: each `getline` result is echoed to the output stream
followed by `'\n'`. -/
def readFileAux (cs : List Char) : List Char :=
  (getlineSplit cs).foldr (fun l acc => l ++ '\n' :: acc) []

/-- `readFile` from `main.cxx`.  A file that does not exist or cannot be
opened leaves the stream in a failed state, so the very first `getline` fails
and the empty string is returned; no error is signalled either way. -/
def readFile (cfg : Config) (fileName : String) : String :=
  match cfg.fs fileName with
  | none => ""
  | some content => String.mk (readFileAux content.data)

/-! ## keyCallback -/

/-- `keyCallback` from `main.cxx`, acting on the window's should-close flag.
The source computes `keyUp` as `action & GLFW_KEY_UP` (the key code 265, not
an action constant) and ands `mods` with the modifier masks. -/
def keyCallback (windowShouldClose : Bool) (key : Int) (_scancode : Int)
    (action : Nat) (mods : Nat) : Bool :=
  let keyUp : Nat := action &&& GLFW_KEY_UP
  let keyQ : Bool := key == GLFW_KEY_Q
  let keyW : Bool := key == GLFW_KEY_W
  let keyF4 : Bool := key == GLFW_KEY_F4
  let keyCtrl : Nat := mods &&& GLFW_MOD_CONTROL
  let keyAlt : Nat := mods &&& GLFW_MOD_ALT
  if (keyUp != 0) && ((keyCtrl != 0 && (keyQ || keyW)) || (keyAlt != 0 && keyF4)) then
    true
  else
    windowShouldClose

/-- The condition under which the source's `keyCallback` sets the close flag,
as written (bit test of `action` against 265). -/
def chordFires (key : Int) (action : Nat) (mods : Nat) : Bool :=
  (action &&& GLFW_KEY_UP != 0) &&
    ((mods &&& GLFW_MOD_CONTROL != 0 && (key == GLFW_KEY_Q || key == GLFW_KEY_W)) ||
     (mods &&& GLFW_MOD_ALT != 0 && key == GLFW_KEY_F4))

/-- Spec-side notion: the event is a press (`GLFW_PRESS`) of one of the quit
chords control+Q, control+W or alt+F4 (the named modifier bit is held). -/
def isQuitChordPress (key : Int) (action : Nat) (mods : Nat) : Bool :=
  (action == GLFW_PRESS) &&
    ((mods &&& GLFW_MOD_CONTROL != 0 && (key == GLFW_KEY_Q || key == GLFW_KEY_W)) ||
     (mods &&& GLFW_MOD_ALT != 0 && key == GLFW_KEY_F4))

/-- Effect of one `glfwPollEvents` on the close flag at iteration `i`: the OS
may request close, and each delivered key event runs `keyCallback`. -/
def pollClose (cfg : Config) (i : Nat) (close : Bool) : Bool :=
  (cfg.keyEvents i).foldl
    (fun c e => keyCallback c e.key e.scancode e.action e.mods)
    (close || cfg.osClose i)

/-- The close flag gets set during the `glfwPollEvents` of iteration `i`
(by the OS close event or by a delivered key event firing the handler). -/
def triggered (cfg : Config) (i : Nat) : Bool :=
  cfg.osClose i || (cfg.keyEvents i).any (fun e => chordFires e.key e.action e.mods)

/-! ## Shader program build -/

/-- `createShader` from `main.cxx`: create, source, compile; returns the new
shader name, the advanced allocator and the emitted calls. -/
def createShader (st : GLState) (ty : Nat) (source : String) :
    Nat × GLState × List Ev :=
  (st.nextName, ⟨st.nextName + 1⟩,
   [Ev.glCreateShader ty st.nextName,
    Ev.glShaderSource st.nextName source,
    Ev.glCompileShader st.nextName])

/-- The `GL_LINK_STATUS` the GL implementation reports for the program:
linking succeeds only if both attached shaders compiled and the link itself
succeeds. -/
def linkStatus (cfg : Config) (vsrc fsrc : String) : Bool :=
  cfg.glCompileOk vsrc && cfg.glCompileOk fsrc && cfg.glLinkOk vsrc fsrc

/-- Debug-build retrieval of one shader's info log (`glGetShaderiv` of
`GL_INFO_LOG_LENGTH`, then the log itself and an error line if the length is
positive). -/
def shaderLogEvents (sh : Nat) (msg : String) (len : Int) : List Ev :=
  Ev.glGetShaderiv sh GL_INFO_LOG_LENGTH len ::
    (if 0 < len then [Ev.glGetShaderInfoLog sh, Ev.reportError msg] else [])

/-- The `#ifdef DEBUG` block of `createProgram`: on link failure in a debug
build, the program log and (length permitting) both shader logs are
retrieved and reported. -/
def debugFailLog (cfg : Config) (prog vs fs : Nat) (status : Bool) : List Ev :=
  if cfg.debug && !status then
    [Ev.glGetProgramiv prog GL_INFO_LOG_LENGTH cfg.progLogLen,
     Ev.glGetProgramInfoLog prog,
     Ev.reportError "GL program error"]
    ++ shaderLogEvents vs "GL vertex shader error" cfg.vertLogLen
    ++ shaderLogEvents fs "GL fragment shader error" cfg.fragLogLen
  else []

/-- All calls emitted by `createProgram` from `main.cxx`, in source order:
build both shaders, create/attach/link the program, query `GL_LINK_STATUS`,
debug-only diagnostics on failure, then detach and delete both shaders
(which happens on the success and the failure path alike, before the
`throw`). -/
def createProgramEvents (cfg : Config) (st : GLState) (vsrc fsrc : String) :
    List Ev :=
  let v := createShader st GL_VERTEX_SHADER vsrc
  let f := createShader v.2.1 GL_FRAGMENT_SHADER fsrc
  let prog := f.2.1.nextName
  let status := linkStatus cfg vsrc fsrc
  v.2.2 ++ f.2.2 ++
  [Ev.glCreateProgram prog,
   Ev.glAttachShader prog v.1,
   Ev.glAttachShader prog f.1,
   Ev.glLinkProgram prog,
   Ev.glGetProgramiv prog GL_LINK_STATUS (if status then 1 else 0)]
  ++ debugFailLog cfg prog v.1 f.1 status
  ++ [Ev.glDetachShader prog v.1, Ev.glDetachShader prog f.1,
      Ev.glDeleteShader v.1, Ev.glDeleteShader f.1]

/-- `createProgram` from `main.cxx`: emits `createProgramEvents`; on link
failure it throws `std::runtime_error("Error creating GL program")`
(modelled as `Except.error`), otherwise it returns the program name
(`st.nextName + 2`, the name created after the two shaders). -/
def createProgram (cfg : Config) (st : GLState) (vsrc fsrc : String) :
    List Ev × Except String (Nat × GLState) :=
  (createProgramEvents cfg st vsrc fsrc,
   if linkStatus cfg vsrc fsrc then Except.ok (st.nextName + 2, ⟨st.nextName + 3⟩)
   else Except.error "Error creating GL program")

/-- The fixed relative path of the vertex shader source. -/
def vertexShaderPath : String := "shaders/main.vert"

/-- The fixed relative path of the fragment shader source. -/
def fragmentShaderPath : String := "shaders/main.frag"

/-- `initializeGL` from `main.cxx`: read both shader files, build the
program (a thrown error propagates), generate and configure the VAO, and
return `ProgramData{program, vao, 3}`. -/
def initializeGL (cfg : Config) (st : GLState) :
    List Ev × Except String (ProgramData × GLState) :=
  let vertexSource := readFile cfg vertexShaderPath
  let fragmentSource := readFile cfg fragmentShaderPath
  match createProgram cfg st vertexSource fragmentSource with
  | (evs, Except.error m) => (evs, Except.error m)
  | (evs, Except.ok (program, st2)) =>
    (evs ++ [Ev.glGenVertexArrays st2.nextName,
             Ev.glBindVertexArray st2.nextName,
             Ev.glBindVertexArray 0],
     Except.ok ({ program := program, vao := st2.nextName, vertexCount := 3 },
                ⟨st2.nextName + 1⟩))

/-- The link status of the program actually built by `initializeGL` (from
the two files at the fixed paths). -/
def buildStatus (cfg : Config) : Bool :=
  linkStatus cfg (readFile cfg vertexShaderPath) (readFile cfg fragmentShaderPath)

/-! ## Window bootstrap -/

/-- The `glfwWindowHint` calls of `initializeWindow` (the debug-context hint
only in debug builds; the Apple-only forward-compat hint is outside the
modelled build). -/
def windowHintEvents (cfg : Config) : List Ev :=
  [Ev.glfwWindowHint GLFW_CONTEXT_VERSION_MAJOR 3,
   Ev.glfwWindowHint GLFW_CONTEXT_VERSION_MINOR 3,
   Ev.glfwWindowHint GLFW_OPENGL_PROFILE GLFW_OPENGL_CORE_PROFILE,
   Ev.glfwWindowHint GLFW_DECORATED 1]
  ++ (if cfg.debug then [Ev.glfwWindowHint GLFW_OPENGL_DEBUG_CONTEXT 1] else [])

/-- Debug-build code after context creation: the `GL_ARB_debug_output`
setup when the extension is available, and the `glGetString(GL_VERSION)`
call inside `DEBUG_LOG_LINE`. -/
def debugContextEvents (cfg : Config) : List Ev :=
  if cfg.debug then
    (if cfg.arbDebugOutput then
       [Ev.glEnableDebugOutput, Ev.glDebugMessageCallbackARBCall]
     else [])
    ++ [Ev.glGetStringVersion]
  else []

/-- `initializeWindow` from `main.cxx`.  Returns the emitted calls and
whether a window was produced (`false` models the `nullptr` returns).  The
failure report on `glfwInit` is the `DEBUG_ERROR_LINE` (debug builds only);
on `glfwCreateWindow` failure the report models the GLFW error callback,
which is installed only in debug builds. -/
def initializeWindow (cfg : Config) : List Ev × Bool :=
  if !cfg.glfwInitOk then
    (Ev.glfwInitCall false ::
       (if cfg.debug then [Ev.reportError "GLFW error: Initialization failed"] else []),
     false)
  else
    let pre := Ev.glfwInitCall true ::
      ((if cfg.debug then [Ev.glfwSetErrorCallbackCall] else [])
        ++ windowHintEvents cfg
        ++ [Ev.glfwCreateWindow 640 480 cfg.createWindowOk])
    if !cfg.createWindowOk then
      (pre ++ (if cfg.debug then [Ev.reportError "GLFW error: window creation failed"] else [])
           ++ [Ev.glfwTerminate],
       false)
    else
      (pre ++ [Ev.glfwMakeContextCurrent, Ev.gladLoadGLCall]
           ++ debugContextEvents cfg
           ++ [Ev.glfwSwapInterval 1, Ev.glfwSetKeyCallbackCall],
       true)

/-! ## Frame loop, teardown, main -/

/-- The body of one iteration of `mainLoop`: framebuffer-size query,
viewport, clear (the `glClearColor` float arguments are constants and left
off the event), bind program and VAO, one `glDrawArrays` of
`programData.vertexCount` vertices as `GL_TRIANGLES`, swap, poll. -/
def loopIter (cfg : Config) (pd : ProgramData) (i : Nat) : List Ev :=
  [Ev.glfwGetFramebufferSize (cfg.fbSize i).1 (cfg.fbSize i).2,
   Ev.glViewport 0 0 (cfg.fbSize i).1 (cfg.fbSize i).2,
   Ev.glClearColor,
   Ev.glClear GL_COLOR_BUFFER_BIT,
   Ev.glUseProgram pd.program,
   Ev.glBindVertexArray pd.vao,
   Ev.glDrawArrays GL_TRIANGLES 0 pd.vertexCount,
   Ev.glfwSwapBuffers,
   Ev.glfwPollEvents]

/-- `mainLoop` from `main.cxx`, fuel-indexed: while the close flag (checked
at the top) is unset, run an iteration and let its final `glfwPollEvents`
update the flag.  Returns the emitted calls, the close flag when the
recursion stops, and the number of iterations executed; the guard observing
the flag true is the only way the real loop exits, so the returned flag
being `true` means the loop terminated. -/
def loopRun (cfg : Config) (pd : ProgramData) :
    Nat → Nat → Bool → List Ev × Bool × Nat
  | 0, _, close => ([], close, 0)
  | fuel + 1, i, close =>
    if close then ([], true, 0)
    else
      let evs := loopIter cfg pd i
      let close2 := pollClose cfg i close
      let r := loopRun cfg pd fuel (i + 1) close2
      (evs ++ r.1, r.2.1, r.2.2 + 1)

/-- `cleanUp` from `main.cxx`: destroy the window, delete the vertex array,
terminate GLFW.  No `glDeleteProgram` call appears in the source. -/
def cleanUp (pd : ProgramData) : List Ev :=
  [Ev.glfwDestroyWindow, Ev.glDeleteVertexArrays pd.vao, Ev.glfwTerminate]

/-- The GL name allocator as the process starts. -/
def GLState.initial : GLState := ⟨1⟩

/-- The `ProgramData` produced on every successful run: shader names 1 and 2,
program 3, VAO 4, vertex count 3. -/
def mainProgramData : ProgramData := ⟨3, 4, 3⟩

/-- `main` from `main.cxx`: bootstrap the window (exit with failure status
on `nullptr`), build the GL objects (an uncaught `std::runtime_error`
terminates the process), run the frame loop, then tear down. -/
def runMain (cfg : Config) (fuel : Nat) : List Ev × Outcome :=
  let w := initializeWindow cfg
  if !w.2 then (w.1, Outcome.exitFailure)
  else
    let g := initializeGL cfg GLState.initial
    match g.2 with
    | Except.error m => (w.1 ++ g.1, Outcome.uncaught m)
    | Except.ok (pd, _) =>
      let r := loopRun cfg pd fuel 0 false
      if r.2.1 then (w.1 ++ g.1 ++ r.1 ++ cleanUp pd, Outcome.normal)
      else (w.1 ++ g.1 ++ r.1, Outcome.fuelExhausted)

/-! ## Event classifiers -/

/-- The event is a call into the graphics API (a `gl*` entry point). -/
def isGLCallEv : Ev → Bool
  | Ev.glEnableDebugOutput | Ev.glDebugMessageCallbackARBCall | Ev.glGetStringVersion
  | Ev.glCreateShader _ _ | Ev.glShaderSource _ _ | Ev.glCompileShader _
  | Ev.glCreateProgram _ | Ev.glAttachShader _ _ | Ev.glLinkProgram _
  | Ev.glGetProgramiv _ _ _ | Ev.glGetProgramInfoLog _
  | Ev.glGetShaderiv _ _ _ | Ev.glGetShaderInfoLog _
  | Ev.glDetachShader _ _ | Ev.glDeleteShader _
  | Ev.glGenVertexArrays _ | Ev.glBindVertexArray _
  | Ev.glViewport _ _ _ _ | Ev.glClearColor | Ev.glClear _
  | Ev.glUseProgram _ | Ev.glDrawArrays _ _ _
  | Ev.glDeleteVertexArrays _ | Ev.glDeleteProgram _ => true
  | _ => false

/-- The event is a diagnostic report (stderr output). -/
def isReportEv : Ev → Bool
  | Ev.reportError _ => true
  | _ => false

/-- The event is a draw call. -/
def isDrawEv : Ev → Bool
  | Ev.glDrawArrays _ _ _ => true
  | _ => false

/-- The event retrieves compile/link diagnostic text. -/
def isInfoLogEv : Ev → Bool
  | Ev.glGetProgramInfoLog _ | Ev.glGetShaderInfoLog _ => true
  | _ => false

/-- The event belongs to teardown: destroying the window, deleting the
vertex array, or shutting GLFW down. -/
def isTeardownEv : Ev → Bool
  | Ev.glfwDestroyWindow | Ev.glfwTerminate | Ev.glDeleteVertexArrays _ => true
  | _ => false

/-- The event is an explicit deletion of a program object. -/
def isDeleteProgramEv : Ev → Bool
  | Ev.glDeleteProgram _ => true
  | _ => false

/-- The event releases one of the two `ProgramData` handles. -/
def releasesHandle (pd : ProgramData) : Ev → Bool
  | Ev.glDeleteVertexArrays n => n == pd.vao
  | Ev.glDeleteProgram n => n == pd.program
  | _ => false

/-- GL object names brought into existence by a trace (shaders, programs,
vertex arrays). -/
def createdNames : List Ev → List Nat
  | [] => []
  | Ev.glCreateShader _ n :: es => n :: createdNames es
  | Ev.glCreateProgram n :: es => n :: createdNames es
  | Ev.glGenVertexArrays n :: es => n :: createdNames es
  | _ :: es => createdNames es

/-- GL object names explicitly deleted by a trace. -/
def deletedNames : List Ev → List Nat
  | [] => []
  | Ev.glDeleteShader n :: es => n :: deletedNames es
  | Ev.glDeleteProgram n :: es => n :: deletedNames es
  | Ev.glDeleteVertexArrays n :: es => n :: deletedNames es
  | _ :: es => deletedNames es

/-- GL object names a trace leaves alive: created and never deleted. -/
def aliveNames (evs : List Ev) : List Nat :=
  (createdNames evs).filter (fun n => !(deletedNames evs).contains n)

/-! ## Concrete environments used by witnesses and counterexamples -/

/-- A release-build environment where everything succeeds and the OS
requests close at the first `glfwPollEvents`. -/
def cfgOk : Config where
  debug := false
  arbDebugOutput := false
  glfwInitOk := true
  createWindowOk := true
  fs := fun _ => some "x"
  glCompileOk := fun _ => true
  glLinkOk := fun _ _ => true
  progLogLen := 0
  vertLogLen := 0
  fragLogLen := 0
  fbSize := fun _ => (640, 480)
  osClose := fun _ => true
  keyEvents := fun _ => []

/-- A release-build environment where `glfwInit` fails. -/
def cfgNoInit : Config :=
  { cfgOk with glfwInitOk := false }

/-- A debug-build environment where `glfwCreateWindow` fails. -/
def cfgNoWinDebug : Config :=
  { cfgOk with debug := true, createWindowOk := false }

/-- A release-build environment where linking fails. -/
def cfgNoLink : Config :=
  { cfgOk with glLinkOk := fun _ _ => false }

/-- A debug-build environment where linking fails and the info logs are
nonempty. -/
def cfgNoLinkDebug : Config :=
  { cfgOk with debug := true, glLinkOk := fun _ _ => false,
               progLogLen := 5, vertLogLen := 5, fragLogLen := 5 }

/-- An environment whose GL implementation refuses to compile an empty
source, and where both shader files are unreadable. -/
def cfgNoFiles : Config :=
  { cfgOk with fs := fun _ => none,
               glCompileOk := fun s => !(s == "") }

/-- An environment holding a file whose content ends in a CRLF sequence. -/
def cfgCrlf : Config :=
  { cfgOk with fs := fun _ => some "a\r\n" }

/-! ## readFile: the getline loop reproduces the content, appending a missing
final newline -/

theorem getlineSplit_ne_nil : ∀ {cs : List Char}, cs ≠ [] → getlineSplit cs ≠ []
  | [], h => absurd rfl h
  | c :: cs, _ => by
    unfold getlineSplit
    split
    · exact List.cons_ne_nil _ _
    · split
      · exact List.cons_ne_nil _ _
      · exact List.cons_ne_nil _ _

theorem readFileAux_newline (cs : List Char) :
    readFileAux ('\n' :: cs) = '\n' :: readFileAux cs := by
  simp [readFileAux, getlineSplit]

theorem readFileAux_cons {c : Char} (hc : c ≠ '\n') {cs : List Char} (hne : cs ≠ []) :
    readFileAux (c :: cs) = c :: readFileAux cs := by
  obtain ⟨l, ls, hsplit⟩ := List.exists_cons_of_ne_nil (getlineSplit_ne_nil hne)
  simp [readFileAux, getlineSplit, hc, hsplit]

theorem readFileAux_eq : ∀ (cs : List Char),
    readFileAux cs =
      cs ++ (if cs.getLast? = some '\n' then []
             else if cs = [] then [] else ['\n'])
  | [] => by simp [readFileAux, getlineSplit]
  | c :: cs => by
    rcases eq_or_ne cs [] with hnil | hne
    · subst hnil
      by_cases hc : c = '\n'
      · subst hc; simp [readFileAux, getlineSplit]
      · simp [readFileAux, getlineSplit, hc]
    · obtain ⟨b, l, rfl⟩ := List.exists_cons_of_ne_nil hne
      have hlast : (c :: b :: l).getLast? = (b :: l).getLast? :=
        List.getLast?_cons_cons
      by_cases hc : c = '\n'
      · subst hc
        rw [readFileAux_newline, readFileAux_eq (b :: l), hlast]
        simp
      · rw [readFileAux_cons hc hne, readFileAux_eq (b :: l), hlast]
        simp

/-! ## keyCallback lemmas -/

theorem keyCallback_eq_or (close : Bool) (key scancode : Int) (action mods : Nat) :
    keyCallback close key scancode action mods = (close || chordFires key action mods) := by
  unfold keyCallback chordFires
  cases h : (action &&& GLFW_KEY_UP != 0) &&
      ((mods &&& GLFW_MOD_CONTROL != 0 && (key == GLFW_KEY_Q || key == GLFW_KEY_W)) ||
       (mods &&& GLFW_MOD_ALT != 0 && key == GLFW_KEY_F4)) <;>
    simp [h]

theorem chordFires_eq_isQuitChordPress (key : Int) (action mods : Nat)
    (hvalid : action = GLFW_RELEASE ∨ action = GLFW_PRESS ∨ action = GLFW_REPEAT) :
    chordFires key action mods = isQuitChordPress key action mods := by
  rcases hvalid with h | h | h <;> subst h <;> rfl

/-! ## Frame-loop lemmas -/

theorem loopRun_close (cfg : Config) (pd : ProgramData) :
    ∀ fuel i, loopRun cfg pd fuel i true = ([], true, 0)
  | 0, _ => rfl
  | _ + 1, _ => rfl

theorem foldl_keyCallback_eq (l : List KeyEvent) (c : Bool) :
    l.foldl (fun c e => keyCallback c e.key e.scancode e.action e.mods) c
      = (c || l.any (fun e => chordFires e.key e.action e.mods)) := by
  induction l generalizing c with
  | nil => simp
  | cons e es ih =>
    simp only [List.foldl_cons]
    rw [keyCallback_eq_or, ih]
    simp [Bool.or_assoc]

theorem pollClose_eq (cfg : Config) (i : Nat) (close : Bool) :
    pollClose cfg i close = (close || triggered cfg i) := by
  unfold pollClose triggered
  rw [foldl_keyCallback_eq]
  simp [Bool.or_assoc]

theorem loopRun_succ_false (cfg : Config) (pd : ProgramData) (fuel i : Nat) :
    loopRun cfg pd (fuel + 1) i false =
      (loopIter cfg pd i ++ (loopRun cfg pd fuel (i + 1) (pollClose cfg i false)).1,
       (loopRun cfg pd fuel (i + 1) (pollClose cfg i false)).2.1,
       (loopRun cfg pd fuel (i + 1) (pollClose cfg i false)).2.2 + 1) := rfl

theorem loopRun_iterations_le (cfg : Config) (pd : ProgramData) (fuel : Nat) :
    ∀ i m close, triggered cfg (i + m) = true →
      (loopRun cfg pd fuel i close).2.2 ≤ m + 1 := by
  induction fuel with
  | zero => intro i m close _; exact Nat.zero_le _
  | succ fuel ih =>
    intro i m close htrig
    cases close with
    | true => simp [loopRun_close]
    | false =>
      rw [loopRun_succ_false]
      cases m with
      | zero =>
        have hp : pollClose cfg i false = true := by
          rw [pollClose_eq]
          simpa using htrig
        rw [hp, loopRun_close]
      | succ m' =>
        have h' : triggered cfg ((i + 1) + m') = true := by
          rw [show (i + 1) + m' = i + (m' + 1) from by omega]
          exact htrig
        have := ih (i + 1) m' (pollClose cfg i false) h'
        simpa using Nat.succ_le_succ this

theorem loopRun_terminates (cfg : Config) (pd : ProgramData) (fuel : Nat) :
    ∀ i m close, triggered cfg (i + m) = true → m + 2 ≤ fuel →
      (loopRun cfg pd fuel i close).2.1 = true := by
  induction fuel with
  | zero => intro i m close _ hf; omega
  | succ fuel ih =>
    intro i m close htrig hf
    cases close with
    | true => simp [loopRun_close]
    | false =>
      rw [loopRun_succ_false]
      cases m with
      | zero =>
        have hp : pollClose cfg i false = true := by
          rw [pollClose_eq]
          simpa using htrig
        rw [hp, loopRun_close]
      | succ m' =>
        have h' : triggered cfg ((i + 1) + m') = true := by
          rw [show (i + 1) + m' = i + (m' + 1) from by omega]
          exact htrig
        exact ih (i + 1) m' (pollClose cfg i false) h' (by omega)

/-! ## Claims C10, C4, C2 -/

/-- Claim C10, counterexample: the claim states that CRLF line endings are
not preserved verbatim, but `readFile` on a file whose content is `"a\r\n"`
returns exactly `"a\r\n"`: `std::getline` splits on `'\n'` only, so the
`'\r'` stays at the end of its line and the `'\n'` is re-appended. -/
theorem readFile_preserves_crlf_verbatim :
    cfgCrlf.fs "f" = some "a\r\n" ∧ readFile cfgCrlf "f" = "a\r\n" := by
  constructor
  · rfl
  · decide

/-- Claim C10 (amended): `readFile` never fails; for an unreadable or missing
file it returns the empty string with no error signalled, and for a readable
file it returns the content unchanged except that a single `'\n'` is appended
when the content is nonempty and does not already end in `'\n'` (so each
`'\n'`-free line, a trailing `'\r'` included, comes out terminated by exactly
one `'\n'`, and CRLF endings pass through verbatim). -/
theorem readFile_total_appends_missing_newline (cfg : Config) (f : String) :
    (cfg.fs f = none → readFile cfg f = "") ∧
    (∀ content, cfg.fs f = some content →
      readFile cfg f =
        String.mk (content.data ++
          (if content.data.getLast? = some '\n' then []
           else if content.data = [] then [] else ['\n']))) := by
  constructor
  · intro h; simp [readFile, h]
  · intro content h; simp [readFile, h, readFileAux_eq]

/-- Witness for C10's theorem at concrete inputs: an unreadable file gives
`""`, and readable content `"x"` (no final newline) gives `"x\n"`. -/
theorem readFile_total_appends_missing_newline_witness :
    readFile cfgNoFiles vertexShaderPath = "" ∧
    readFile cfgOk vertexShaderPath = "x\n" := by
  constructor
  · exact (readFile_total_appends_missing_newline cfgNoFiles vertexShaderPath).1 rfl
  · have h := (readFile_total_appends_missing_newline cfgOk vertexShaderPath).2 "x" rfl
    rw [h]; decide

/-- Claim C4: for every key event with a valid GLFW action
(`GLFW_RELEASE`, `GLFW_PRESS` or `GLFW_REPEAT`), `keyCallback` sets the
window's close flag if and only if the event is a press of control+Q,
control+W or alt+F4; every other event leaves the flag (the only application
state the handler touches) unchanged.  The source's `action & GLFW_KEY_UP`
test is truthy exactly for `GLFW_PRESS` among the valid actions. -/
theorem key_handler_sets_close_iff_quit_chord_press (close : Bool) (key scancode : Int)
    (action mods : Nat)
    (hvalid : action = GLFW_RELEASE ∨ action = GLFW_PRESS ∨ action = GLFW_REPEAT) :
    keyCallback close key scancode action mods
      = (close || isQuitChordPress key action mods) := by
  rw [keyCallback_eq_or, chordFires_eq_isQuitChordPress key action mods hvalid]

/-- Witness for C4 at a concrete event: a press of control+Q. -/
theorem key_handler_sets_close_iff_quit_chord_press_witness :
    keyCallback false GLFW_KEY_Q 24 GLFW_PRESS GLFW_MOD_CONTROL
      = (false || isQuitChordPress GLFW_KEY_Q GLFW_PRESS GLFW_MOD_CONTROL) ∧
    isQuitChordPress GLFW_KEY_Q GLFW_PRESS GLFW_MOD_CONTROL = true :=
  ⟨key_handler_sets_close_iff_quit_chord_press false GLFW_KEY_Q 24 GLFW_PRESS
      GLFW_MOD_CONTROL (Or.inr (Or.inl rfl)),
   by decide⟩

/-- Claim C2: once the close flag is set during the `glfwPollEvents` of
iteration `m` (by the OS close event or by the key handler), the loop
executes at most one more iteration in total than `m` (the one whose poll set
the flag) and then terminates: the guard at the top of the next iteration
observes the flag. -/
theorem close_flag_terminates_loop_within_one_iteration (cfg : Config)
    (pd : ProgramData) (fuel m : Nat) (hset : triggered cfg m = true) :
    (loopRun cfg pd fuel 0 false).2.2 ≤ m + 1 ∧
    (m + 2 ≤ fuel → (loopRun cfg pd fuel 0 false).2.1 = true) := by
  refine ⟨?_, fun hfuel => ?_⟩
  · exact loopRun_iterations_le cfg pd fuel 0 m false (by simpa using hset)
  · exact loopRun_terminates cfg pd fuel 0 m false (by simpa using hset) hfuel

/-- Witness for C2: close requested at the first poll, fuel 3: exactly one
iteration runs and the loop terminates. -/
theorem close_flag_terminates_loop_within_one_iteration_witness :
    (loopRun cfgOk mainProgramData 3 0 false).2.2 ≤ 1 ∧
    (loopRun cfgOk mainProgramData 3 0 false).2.1 = true := by
  have h := close_flag_terminates_loop_within_one_iteration cfgOk mainProgramData 3 0
    (by decide)
  exact ⟨h.1, h.2 (by decide)⟩

/-! ## Program-build lemmas -/

theorem createProgram_ok (cfg : Config) (st : GLState) (vsrc fsrc : String)
    (h : linkStatus cfg vsrc fsrc = true) :
    createProgram cfg st vsrc fsrc =
      (createProgramEvents cfg st vsrc fsrc,
       Except.ok (st.nextName + 2, ⟨st.nextName + 3⟩)) := by
  simp [createProgram, h]

theorem createProgram_err (cfg : Config) (st : GLState) (vsrc fsrc : String)
    (h : linkStatus cfg vsrc fsrc = false) :
    createProgram cfg st vsrc fsrc =
      (createProgramEvents cfg st vsrc fsrc,
       Except.error "Error creating GL program") := by
  simp [createProgram, h]

theorem initializeGL_ok (cfg : Config) (st : GLState)
    (h : linkStatus cfg (readFile cfg vertexShaderPath) (readFile cfg fragmentShaderPath)
           = true) :
    initializeGL cfg st =
      (createProgramEvents cfg st (readFile cfg vertexShaderPath)
          (readFile cfg fragmentShaderPath)
         ++ [Ev.glGenVertexArrays (st.nextName + 3),
             Ev.glBindVertexArray (st.nextName + 3),
             Ev.glBindVertexArray 0],
       Except.ok ({ program := st.nextName + 2, vao := st.nextName + 3, vertexCount := 3 },
                  ⟨st.nextName + 4⟩)) := by
  simp only [initializeGL]
  rw [createProgram_ok cfg st _ _ h]

theorem initializeGL_err (cfg : Config) (st : GLState)
    (h : linkStatus cfg (readFile cfg vertexShaderPath) (readFile cfg fragmentShaderPath)
           = false) :
    initializeGL cfg st =
      (createProgramEvents cfg st (readFile cfg vertexShaderPath)
          (readFile cfg fragmentShaderPath),
       Except.error "Error creating GL program") := by
  simp only [initializeGL]
  rw [createProgram_err cfg st _ _ h]

theorem initializeGL_ok_vertexCount (cfg : Config) (st : GLState) (gEvs : List Ev)
    (pd : ProgramData) (st2 : GLState)
    (h : initializeGL cfg st = (gEvs, Except.ok (pd, st2))) : pd.vertexCount = 3 := by
  cases hls : linkStatus cfg (readFile cfg vertexShaderPath)
      (readFile cfg fragmentShaderPath) with
  | false =>
    rw [initializeGL_err cfg st hls] at h
    simp at h
  | true =>
    rw [initializeGL_ok cfg st hls] at h
    simp only [Prod.mk.injEq, Except.ok.injEq] at h
    obtain ⟨-, hpd, -⟩ := h
    rw [← hpd]

/-! ## Claim C3 -/

/-- Claim C3: in every iteration of the frame loop, with the `ProgramData`
produced by a successful `initializeGL`, exactly one draw call is issued, and
it draws exactly 3 vertices as `GL_TRIANGLES`; the framebuffer-size query and
matching viewport call and the color-buffer clear precede the draw, and the
buffer swap (presentation) and `glfwPollEvents` follow it, as the listed
trace shows. -/
theorem each_frame_issues_one_draw_of_three_vertices (cfg : Config) (st : GLState)
    (gEvs : List Ev) (pd : ProgramData) (st2 : GLState) (i : Nat)
    (h : initializeGL cfg st = (gEvs, Except.ok (pd, st2))) :
    loopIter cfg pd i =
      [Ev.glfwGetFramebufferSize (cfg.fbSize i).1 (cfg.fbSize i).2,
       Ev.glViewport 0 0 (cfg.fbSize i).1 (cfg.fbSize i).2,
       Ev.glClearColor,
       Ev.glClear GL_COLOR_BUFFER_BIT,
       Ev.glUseProgram pd.program,
       Ev.glBindVertexArray pd.vao,
       Ev.glDrawArrays GL_TRIANGLES 0 3,
       Ev.glfwSwapBuffers,
       Ev.glfwPollEvents] ∧
    ((loopIter cfg pd i).filter isDrawEv).length = 1 := by
  have hvc : pd.vertexCount = 3 := initializeGL_ok_vertexCount cfg st gEvs pd st2 h
  constructor
  · simp [loopIter, hvc]
  · simp [loopIter, isDrawEv]

/-- Witness for C3 at the all-success environment `cfgOk`. -/
theorem each_frame_issues_one_draw_of_three_vertices_witness :
    loopIter cfgOk mainProgramData 0 =
      [Ev.glfwGetFramebufferSize 640 480,
       Ev.glViewport 0 0 640 480,
       Ev.glClearColor,
       Ev.glClear GL_COLOR_BUFFER_BIT,
       Ev.glUseProgram 3,
       Ev.glBindVertexArray 4,
       Ev.glDrawArrays GL_TRIANGLES 0 3,
       Ev.glfwSwapBuffers,
       Ev.glfwPollEvents] ∧
    ((loopIter cfgOk mainProgramData 0).filter isDrawEv).length = 1 := by
  have h := each_frame_issues_one_draw_of_three_vertices cfgOk ⟨1⟩
    (initializeGL cfgOk ⟨1⟩).1 mainProgramData ⟨5⟩ 0 (by rfl)
  simpa using h

/-! ## Claim C8 -/

/-- Claim C8: when linking succeeds, `createProgram` detaches both shader
objects from the program and deletes both of them before returning (the four
calls after the link-status query), and the only GL object the build step
leaves alive — and returns — is the linked program. -/
theorem link_success_detaches_and_deletes_shaders (cfg : Config) (st : GLState)
    (vsrc fsrc : String) (h : linkStatus cfg vsrc fsrc = true) :
    createProgram cfg st vsrc fsrc =
      ([Ev.glCreateShader GL_VERTEX_SHADER st.nextName,
        Ev.glShaderSource st.nextName vsrc,
        Ev.glCompileShader st.nextName,
        Ev.glCreateShader GL_FRAGMENT_SHADER (st.nextName + 1),
        Ev.glShaderSource (st.nextName + 1) fsrc,
        Ev.glCompileShader (st.nextName + 1),
        Ev.glCreateProgram (st.nextName + 2),
        Ev.glAttachShader (st.nextName + 2) st.nextName,
        Ev.glAttachShader (st.nextName + 2) (st.nextName + 1),
        Ev.glLinkProgram (st.nextName + 2),
        Ev.glGetProgramiv (st.nextName + 2) GL_LINK_STATUS 1,
        Ev.glDetachShader (st.nextName + 2) st.nextName,
        Ev.glDetachShader (st.nextName + 2) (st.nextName + 1),
        Ev.glDeleteShader st.nextName,
        Ev.glDeleteShader (st.nextName + 1)],
       Except.ok (st.nextName + 2, ⟨st.nextName + 3⟩)) ∧
    aliveNames (createProgram cfg st vsrc fsrc).1 = [st.nextName + 2] := by
  have hev : createProgramEvents cfg st vsrc fsrc =
      [Ev.glCreateShader GL_VERTEX_SHADER st.nextName,
       Ev.glShaderSource st.nextName vsrc,
       Ev.glCompileShader st.nextName,
       Ev.glCreateShader GL_FRAGMENT_SHADER (st.nextName + 1),
       Ev.glShaderSource (st.nextName + 1) fsrc,
       Ev.glCompileShader (st.nextName + 1),
       Ev.glCreateProgram (st.nextName + 2),
       Ev.glAttachShader (st.nextName + 2) st.nextName,
       Ev.glAttachShader (st.nextName + 2) (st.nextName + 1),
       Ev.glLinkProgram (st.nextName + 2),
       Ev.glGetProgramiv (st.nextName + 2) GL_LINK_STATUS 1,
       Ev.glDetachShader (st.nextName + 2) st.nextName,
       Ev.glDetachShader (st.nextName + 2) (st.nextName + 1),
       Ev.glDeleteShader st.nextName,
       Ev.glDeleteShader (st.nextName + 1)] := by
    simp [createProgramEvents, createShader, debugFailLog, h]
  constructor
  · rw [createProgram_ok cfg st vsrc fsrc h, hev]
  · rw [show (createProgram cfg st vsrc fsrc).1 = createProgramEvents cfg st vsrc fsrc
        from rfl, hev]
    have hc0 : (st.nextName == st.nextName) = true := beq_self_eq_true _
    have hc1 : ((st.nextName + 1) == st.nextName) = false := by
      simp only [beq_eq_false_iff_ne, ne_eq]
      omega
    have hc1' : ((st.nextName + 1) == (st.nextName + 1)) = true := beq_self_eq_true _
    have hc2 : ((st.nextName + 2) == st.nextName) = false := by
      simp only [beq_eq_false_iff_ne, ne_eq]
      omega
    have hc2' : ((st.nextName + 2) == (st.nextName + 1)) = false := by
      simp only [beq_eq_false_iff_ne, ne_eq]
      omega
    simp [aliveNames, createdNames, deletedNames, List.contains_cons,
      hc0, hc1, hc1', hc2, hc2']

/-- Witness for C8 at a concrete environment and allocator state. -/
theorem link_success_detaches_and_deletes_shaders_witness :
    createProgram cfgOk ⟨1⟩ "a" "b" =
      ([Ev.glCreateShader GL_VERTEX_SHADER 1,
        Ev.glShaderSource 1 "a",
        Ev.glCompileShader 1,
        Ev.glCreateShader GL_FRAGMENT_SHADER 2,
        Ev.glShaderSource 2 "b",
        Ev.glCompileShader 2,
        Ev.glCreateProgram 3,
        Ev.glAttachShader 3 1,
        Ev.glAttachShader 3 2,
        Ev.glLinkProgram 3,
        Ev.glGetProgramiv 3 GL_LINK_STATUS 1,
        Ev.glDetachShader 3 1,
        Ev.glDetachShader 3 2,
        Ev.glDeleteShader 1,
        Ev.glDeleteShader 2],
       Except.ok (3, ⟨4⟩)) ∧
    aliveNames (createProgram cfgOk ⟨1⟩ "a" "b").1 = [3] := by
  have h := link_success_detaches_and_deletes_shaders cfgOk ⟨1⟩ "a" "b" (by rfl)
  simpa using h

/-! ## Window and main lemmas -/

theorem initializeWindow_ok (cfg : Config) (h1 : cfg.glfwInitOk = true)
    (h2 : cfg.createWindowOk = true) : (initializeWindow cfg).2 = true := by
  simp [initializeWindow, h1, h2]

theorem initializeWindow_ok_filter_teardown (cfg : Config) (h1 : cfg.glfwInitOk = true)
    (h2 : cfg.createWindowOk = true) :
    (initializeWindow cfg).1.filter isTeardownEv = [] := by
  by_cases hd : cfg.debug <;> by_cases ha : cfg.arbDebugOutput <;>
    simp [initializeWindow, windowHintEvents, debugContextEvents, h1, h2, hd, ha,
      isTeardownEv]

theorem initializeWindow_ok_filter_releases (cfg : Config) (pd : ProgramData)
    (h1 : cfg.glfwInitOk = true) (h2 : cfg.createWindowOk = true) :
    (initializeWindow cfg).1.filter (releasesHandle pd) = [] := by
  by_cases hd : cfg.debug <;> by_cases ha : cfg.arbDebugOutput <;>
    simp [initializeWindow, windowHintEvents, debugContextEvents, h1, h2, hd, ha,
      releasesHandle]

theorem initializeWindow_ok_filter_deleteProgram (cfg : Config)
    (h1 : cfg.glfwInitOk = true) (h2 : cfg.createWindowOk = true) :
    (initializeWindow cfg).1.filter isDeleteProgramEv = [] := by
  by_cases hd : cfg.debug <;> by_cases ha : cfg.arbDebugOutput <;>
    simp [initializeWindow, windowHintEvents, debugContextEvents, h1, h2, hd, ha,
      isDeleteProgramEv]

theorem createProgramEvents_filter_teardown (cfg : Config) (st : GLState)
    (vsrc fsrc : String) :
    (createProgramEvents cfg st vsrc fsrc).filter isTeardownEv = [] := by
  by_cases hd : cfg.debug <;> by_cases hs : linkStatus cfg vsrc fsrc <;>
    by_cases hv : (0 : Int) < cfg.vertLogLen <;> by_cases hf : (0 : Int) < cfg.fragLogLen <;>
      simp [createProgramEvents, createShader, debugFailLog, shaderLogEvents,
        hd, hs, hv, hf, isTeardownEv]

theorem createProgramEvents_filter_releases (cfg : Config) (st : GLState)
    (vsrc fsrc : String) (pd : ProgramData) :
    (createProgramEvents cfg st vsrc fsrc).filter (releasesHandle pd) = [] := by
  by_cases hd : cfg.debug <;> by_cases hs : linkStatus cfg vsrc fsrc <;>
    by_cases hv : (0 : Int) < cfg.vertLogLen <;> by_cases hf : (0 : Int) < cfg.fragLogLen <;>
      simp [createProgramEvents, createShader, debugFailLog, shaderLogEvents,
        hd, hs, hv, hf, releasesHandle]

theorem createProgramEvents_filter_deleteProgram (cfg : Config) (st : GLState)
    (vsrc fsrc : String) :
    (createProgramEvents cfg st vsrc fsrc).filter isDeleteProgramEv = [] := by
  by_cases hd : cfg.debug <;> by_cases hs : linkStatus cfg vsrc fsrc <;>
    by_cases hv : (0 : Int) < cfg.vertLogLen <;> by_cases hf : (0 : Int) < cfg.fragLogLen <;>
      simp [createProgramEvents, createShader, debugFailLog, shaderLogEvents,
        hd, hs, hv, hf, isDeleteProgramEv]

theorem runMain_buildFail (cfg : Config) (fuel : Nat)
    (h1 : cfg.glfwInitOk = true) (h2 : cfg.createWindowOk = true)
    (hs : buildStatus cfg = false) :
    runMain cfg fuel =
      ((initializeWindow cfg).1
         ++ createProgramEvents cfg GLState.initial (readFile cfg vertexShaderPath)
              (readFile cfg fragmentShaderPath),
       Outcome.uncaught "Error creating GL program") := by
  have hw := initializeWindow_ok cfg h1 h2
  have hg := initializeGL_err cfg GLState.initial hs
  simp only [runMain]
  rw [hw, hg]
  simp

theorem runMain_ok (cfg : Config) (fuel : Nat)
    (h1 : cfg.glfwInitOk = true) (h2 : cfg.createWindowOk = true)
    (hs : buildStatus cfg = true)
    (hterm : (loopRun cfg mainProgramData fuel 0 false).2.1 = true) :
    runMain cfg fuel =
      ((initializeWindow cfg).1 ++ (initializeGL cfg GLState.initial).1
        ++ (loopRun cfg mainProgramData fuel 0 false).1 ++ cleanUp mainProgramData,
       Outcome.normal) := by
  have hw := initializeWindow_ok cfg h1 h2
  have hg := initializeGL_ok cfg GLState.initial hs
  have hpd : ({ program := GLState.initial.nextName + 2,
                vao := GLState.initial.nextName + 3,
                vertexCount := 3 } : ProgramData) = mainProgramData := rfl
  rw [hpd] at hg
  simp only [runMain]
  rw [hw, hg]
  simp [hterm]

theorem loopRun_filter_eq_nil (cfg : Config) (pd : ProgramData) (p : Ev → Bool)
    (hp : ∀ i, (loopIter cfg pd i).filter p = []) :
    ∀ fuel i c, ((loopRun cfg pd fuel i c).1).filter p = [] := by
  intro fuel
  induction fuel with
  | zero => intro i c; rfl
  | succ fuel ih =>
    intro i c
    cases c with
    | true => simp [loopRun_close]
    | false =>
      rw [loopRun_succ_false]
      simp [List.filter_append, hp i, ih]

/-! ## Claim C6 -/

/-- Claim C6, counterexample: in a release build (the `DEBUG` macro not
defined, `Config.debug = false`) a link failure throws, but no diagnostic
text is retrieved — no `glGetProgramInfoLog` or `glGetShaderInfoLog` call
occurs — contradicting the claim that diagnostic text is retrieved on
failure. -/
theorem link_failure_no_diagnostics_in_release_build :
    (createProgram cfgNoLink ⟨1⟩ "a" "b").2 = Except.error "Error creating GL program" ∧
    (createProgram cfgNoLink ⟨1⟩ "a" "b").1.filter isInfoLogEv = [] := by
  constructor
  · rfl
  · decide

/-- Claim C6 (amended): if shader compilation or program linking fails, the
build step throws a runtime error (`std::runtime_error`) that, uncaught,
terminates the process, and it never returns a program handle; the
diagnostic text is retrieved (program info log, and shader info logs)
only in debug builds — release builds throw without retrieving any log. -/
theorem link_failure_throws_and_returns_no_program (cfg : Config) (st : GLState)
    (vsrc fsrc : String) (hs : linkStatus cfg vsrc fsrc = false) :
    (createProgram cfg st vsrc fsrc).2 = Except.error "Error creating GL program" ∧
    (cfg.debug = true →
      Ev.glGetProgramInfoLog (st.nextName + 2) ∈ (createProgram cfg st vsrc fsrc).1) ∧
    (cfg.debug = false →
      (createProgram cfg st vsrc fsrc).1.filter isInfoLogEv = []) ∧
    (cfg.glfwInitOk = true → cfg.createWindowOk = true → buildStatus cfg = false →
      ∀ fuel, (runMain cfg fuel).2 = Outcome.uncaught "Error creating GL program") := by
  refine ⟨?_, fun hd => ?_, fun hd => ?_, fun h1 h2 hb fuel => ?_⟩
  · simp [createProgram, hs]
  · show Ev.glGetProgramInfoLog (st.nextName + 2) ∈ createProgramEvents cfg st vsrc fsrc
    simp [createProgramEvents, createShader, debugFailLog, hd, hs]
  · show (createProgramEvents cfg st vsrc fsrc).filter isInfoLogEv = []
    simp [createProgramEvents, createShader, debugFailLog, shaderLogEvents, hd,
      isInfoLogEv]
  · rw [runMain_buildFail cfg fuel h1 h2 hb]

/-- Witness for C6's amended theorem at a debug-build environment with a
failing link. -/
theorem link_failure_throws_and_returns_no_program_witness :
    (createProgram cfgNoLinkDebug ⟨1⟩ "a" "b").2
        = Except.error "Error creating GL program" ∧
    Ev.glGetProgramInfoLog 3 ∈ (createProgram cfgNoLinkDebug ⟨1⟩ "a" "b").1 := by
  have h := link_failure_throws_and_returns_no_program cfgNoLinkDebug ⟨1⟩ "a" "b"
    (by rfl)
  exact ⟨h.1, h.2.1 rfl⟩

/-! ## Claim C5 -/

/-- Claim C5, counterexample: in a release build, when `glfwInit` fails the
process exits with a failure status before any GL call, but nothing is
reported — the `DEBUG_ERROR_LINE` report is compiled out — contradicting the
claim that the process reports the error. -/
theorem window_failure_silent_in_release_build :
    (runMain cfgNoInit 1).2 = Outcome.exitFailure ∧
    (runMain cfgNoInit 1).1.filter isReportEv = [] ∧
    (runMain cfgNoInit 1).1.filter isGLCallEv = [] := by
  refine ⟨rfl, by decide, by decide⟩

/-- Claim C5 (amended): if initialization of the windowing library fails or
window creation fails, the process exits with a failure status, and no
graphics (GL) call is ever attempted; the error is reported only in debug
builds (release builds exit silently). -/
theorem window_failure_exits_before_gl_calls (cfg : Config) (fuel : Nat)
    (h : cfg.glfwInitOk = false ∨ cfg.createWindowOk = false) :
    (runMain cfg fuel).2 = Outcome.exitFailure ∧
    (runMain cfg fuel).1.filter isGLCallEv = [] ∧
    (cfg.debug = true → (runMain cfg fuel).1.filter isReportEv ≠ []) := by
  have hw2 : (initializeWindow cfg).2 = false := by
    rcases h with h | h
    · simp [initializeWindow, h]
    · by_cases hi : cfg.glfwInitOk <;> simp [initializeWindow, hi, h]
  have hrm : runMain cfg fuel = ((initializeWindow cfg).1, Outcome.exitFailure) := by
    simp only [runMain]
    rw [hw2]
    simp
  rw [hrm]
  refine ⟨rfl, ?_, fun hd => ?_⟩
  · rcases h with h | h
    · by_cases hd : cfg.debug <;> simp [initializeWindow, h, hd, isGLCallEv]
    · by_cases hi : cfg.glfwInitOk <;> by_cases hd : cfg.debug <;>
        simp [initializeWindow, windowHintEvents, hi, h, hd, isGLCallEv]
  · rcases h with h | h
    · simp [initializeWindow, h, hd, isReportEv]
    · by_cases hi : cfg.glfwInitOk <;>
        simp [initializeWindow, windowHintEvents, hi, h, hd, isReportEv]

/-- Witness for C5's amended theorem: a debug build whose window creation
fails exits with a failure status, makes no GL call, and reports the error. -/
theorem window_failure_exits_before_gl_calls_witness :
    (runMain cfgNoWinDebug 1).2 = Outcome.exitFailure ∧
    (runMain cfgNoWinDebug 1).1.filter isGLCallEv = [] ∧
    (runMain cfgNoWinDebug 1).1.filter isReportEv ≠ [] := by
  have h := window_failure_exits_before_gl_calls cfgNoWinDebug 1 (Or.inr rfl)
  exact ⟨h.1, h.2.1, h.2.2 rfl⟩

/-! ## Claim C9 -/

/-- Claim C9: on the shader/program build failure path the teardown step is
never invoked: the whole trace of the run contains no `glfwDestroyWindow`,
no `glDeleteVertexArrays` and no `glfwTerminate`, and the process terminates
via the uncaught runtime error. -/
theorem build_failure_skips_teardown (cfg : Config) (fuel : Nat)
    (h1 : cfg.glfwInitOk = true) (h2 : cfg.createWindowOk = true)
    (hs : buildStatus cfg = false) :
    (runMain cfg fuel).2 = Outcome.uncaught "Error creating GL program" ∧
    (runMain cfg fuel).1.filter isTeardownEv = [] := by
  rw [runMain_buildFail cfg fuel h1 h2 hs]
  refine ⟨rfl, ?_⟩
  simp [List.filter_append, initializeWindow_ok_filter_teardown cfg h1 h2,
    createProgramEvents_filter_teardown]

/-- Witness for C9 at a release build whose link fails. -/
theorem build_failure_skips_teardown_witness :
    (runMain cfgNoLink 1).2 = Outcome.uncaught "Error creating GL program" ∧
    (runMain cfgNoLink 1).1.filter isTeardownEv = [] := by
  have h := build_failure_skips_teardown cfgNoLink 1 rfl rfl (by rfl)
  exact h

/-! ## Claim C7 -/

/-- Claim C7: if a shader source file cannot be read, `readFile` yields the
empty string, and — provided the GL implementation does not link a program
one of whose shader sources is empty (an empty translation unit has no
`main`, so a conforming implementation rejects it at compile or link time) —
the initialization step ends in the build error rather than a successful
program build, and the process terminates via the uncaught runtime error. -/
theorem unreadable_shader_file_is_fatal (cfg : Config) (fuel : Nat)
    (h1 : cfg.glfwInitOk = true) (h2 : cfg.createWindowOk = true)
    (hf : cfg.fs vertexShaderPath = none ∨ cfg.fs fragmentShaderPath = none)
    (hgl : ∀ a b : String, a = "" ∨ b = "" → linkStatus cfg a b = false) :
    (initializeGL cfg GLState.initial).2 = Except.error "Error creating GL program" ∧
    (runMain cfg fuel).2 = Outcome.uncaught "Error creating GL program" := by
  have hs : buildStatus cfg = false := by
    rcases hf with hf | hf
    · exact hgl _ _ (Or.inl (by simp [readFile, hf]))
    · exact hgl _ _ (Or.inr (by simp [readFile, hf]))
  constructor
  · rw [initializeGL_err cfg GLState.initial hs]
  · rw [runMain_buildFail cfg fuel h1 h2 hs]

/-- Witness for C7: both shader files unreadable, GL rejecting empty
sources. -/
theorem unreadable_shader_file_is_fatal_witness :
    (initializeGL cfgNoFiles GLState.initial).2
        = Except.error "Error creating GL program" ∧
    (runMain cfgNoFiles 1).2 = Outcome.uncaught "Error creating GL program" := by
  refine unreadable_shader_file_is_fatal cfgNoFiles 1 rfl rfl (Or.inl rfl) ?_
  intro a b hab
  rcases hab with rfl | rfl <;> simp [linkStatus, cfgNoFiles, cfgOk]

/-! ## Claim C1 -/

/-- Claim C1, counterexample: a complete successful run (window, build, one
loop iteration, teardown) ends normally and uses the program handle, yet its
trace contains no `glDeleteProgram` at all — the source never deletes the
program object — so the claim that each of the two handles is released
exactly once is false. -/
theorem program_handle_never_deleted :
    (runMain cfgOk 3).2 = Outcome.normal ∧
    Ev.glUseProgram 3 ∈ (runMain cfgOk 3).1 ∧
    (runMain cfgOk 3).1.filter isDeleteProgramEv = [] := by
  refine ⟨by decide, by decide, by decide⟩

/-- Claim C1 (amended): on a successful run, neither handle of the
`ProgramData` is released before or during the frame loop (they stay valid
for its entire duration); after the loop exits, teardown runs and the
vertex-array handle is released exactly once — the single release event of
the whole trace, occurring in the `cleanUp` suffix after all loop events —
while the program handle is never explicitly released (no `glDeleteProgram`
exists in the program). -/
theorem handles_valid_entire_loop_vao_released_once_after (cfg : Config)
    (fuel m : Nat)
    (h1 : cfg.glfwInitOk = true) (h2 : cfg.createWindowOk = true)
    (h3 : buildStatus cfg = true) (h4 : triggered cfg m = true)
    (h5 : m + 2 ≤ fuel) :
    runMain cfg fuel =
      ((initializeWindow cfg).1 ++ (initializeGL cfg GLState.initial).1
        ++ (loopRun cfg mainProgramData fuel 0 false).1 ++ cleanUp mainProgramData,
       Outcome.normal) ∧
    ((loopRun cfg mainProgramData fuel 0 false).1.filter
        (releasesHandle mainProgramData)) = [] ∧
    ((runMain cfg fuel).1.filter (releasesHandle mainProgramData))
        = [Ev.glDeleteVertexArrays 4] ∧
    ((runMain cfg fuel).1.filter isDeleteProgramEv) = [] := by
  have hterm : (loopRun cfg mainProgramData fuel 0 false).2.1 = true :=
    loopRun_terminates cfg mainProgramData fuel 0 m false (by simpa using h4) h5
  have hdec := runMain_ok cfg fuel h1 h2 h3 hterm
  have hloopR : ((loopRun cfg mainProgramData fuel 0 false).1.filter
      (releasesHandle mainProgramData)) = [] :=
    loopRun_filter_eq_nil cfg mainProgramData (releasesHandle mainProgramData)
      (fun i => by simp [loopIter, releasesHandle]) fuel 0 false
  have hloopD : ((loopRun cfg mainProgramData fuel 0 false).1.filter
      isDeleteProgramEv) = [] :=
    loopRun_filter_eq_nil cfg mainProgramData isDeleteProgramEv
      (fun i => by simp [loopIter, isDeleteProgramEv]) fuel 0 false
  have hglR : ((initializeGL cfg GLState.initial).1.filter
      (releasesHandle mainProgramData)) = [] := by
    rw [initializeGL_ok cfg GLState.initial h3]
    simp [List.filter_append, createProgramEvents_filter_releases, releasesHandle]
  have hglD : ((initializeGL cfg GLState.initial).1.filter isDeleteProgramEv) = [] := by
    rw [initializeGL_ok cfg GLState.initial h3]
    simp [List.filter_append, createProgramEvents_filter_deleteProgram,
      isDeleteProgramEv]
  have hclean : (cleanUp mainProgramData).filter (releasesHandle mainProgramData)
      = [Ev.glDeleteVertexArrays 4] := by decide
  have hcleanD : (cleanUp mainProgramData).filter isDeleteProgramEv = [] := by decide
  refine ⟨hdec, hloopR, ?_, ?_⟩
  · rw [hdec]
    simp only [List.filter_append,
      initializeWindow_ok_filter_releases cfg mainProgramData h1 h2,
      hglR, hloopR, hclean, List.nil_append]
  · rw [hdec]
    simp only [List.filter_append,
      initializeWindow_ok_filter_deleteProgram cfg h1 h2,
      hglD, hloopD, hcleanD, List.nil_append, List.append_nil]

/-- Witness for C1's amended theorem at the all-success environment. -/
theorem handles_valid_entire_loop_vao_released_once_after_witness :
    ((loopRun cfgOk mainProgramData 3 0 false).1.filter
        (releasesHandle mainProgramData)) = [] ∧
    ((runMain cfgOk 3).1.filter (releasesHandle mainProgramData))
        = [Ev.glDeleteVertexArrays 4] ∧
    ((runMain cfgOk 3).1.filter isDeleteProgramEv) = [] := by
  have h := handles_valid_entire_loop_vao_released_once_after cfgOk 3 0 rfl rfl
    (by rfl) (by rfl) (by decide)
  exact ⟨h.2.1, h.2.2.1, h.2.2.2⟩
